import Mathlib

/-!
Shallow embedding of the `golog` leveled logging facility (src/logger.go).

Modelling conventions:
* A Go `interface{}` argument to a logging call is represented by its `%v`
  rendering, a `String`; a variadic argument list is a `List String`.
* Go `error` values are `Option α` for an arbitrary payload type `α` with a
  rendering function `toStr : α → String`; `none` is Go `nil`.
* Writing to standard output is modelled by returning the `List String` of
  lines printed (in order); a function that prints nothing returns `[]`.
* `panic(x)` is modelled by a `Option _` component of the result: `some x`
  means an abort signal carrying `x` is raised, `none` means normal return.
  `recover()` is modelled by passing the in-flight abort signal
  (`none` when no abort is propagating) into `BreakOnError` and returning
  the abort signal still in flight afterwards.
* The package-level constants `DEBUG`, `WARN`, `ERROR` are build-time
  configuration; they are modelled as a `Globals` record so that statements
  can quantify over every configuration. `defaultGlobals` is the value
  compiled into the source (all three set to 1).
* `time.Now().Format(self.timeFormat)` is modelled by an abstract input
  `ts : String`, the rendered timestamp of the call.
* `fmt.Println(a, v)` where `v` is a `[]interface{}` prints `a`, a space,
  and Go's rendering of the slice `v`: its elements space-joined and
  enclosed in square brackets, i.e. `a ++ " [" ++ join ++ "]"`.
-/

namespace Golog

/-- The three package-level level switches `DEBUG`, `WARN`, `ERROR`
(src/logger.go lines 15, 20, 26). Go `int` constants; 1 enables a level. -/
structure Globals where
  DEBUG : Int
  WARN : Int
  ERROR : Int
deriving DecidableEq, Repr

/-- The values the source compiles in: `DEBUG = 1`, `WARN = 1`, `ERROR = 1`. -/
def defaultGlobals : Globals := { DEBUG := 1, WARN := 1, ERROR := 1 }

/-- The `logger` struct (src/logger.go lines 29-33). -/
structure logger where
  tag : String
  d : Int
  w : Int
  e : Int
  timeFormat : String
deriving DecidableEq, Repr

/-- The `Logger` constructor (lines 44-50): the optional variadic
`timeFormat` collapses to its first element, or `""` when absent. -/
def Logger (tag : String) (d w e : Int) (timeFormat : List String) : logger :=
  { tag := tag, d := d, w := w, e := e,
    timeFormat := match timeFormat with
      | [] => ""
      | tf :: _ => tf }

/-- Go's default rendering of a `[]interface{}` value: the elements
space-joined inside square brackets. -/
def sliceRepr (v : List String) : String :=
  "[" ++ String.intercalate " " v ++ "]"

/-- `fmt.Println(levelTag, v)` as used by the free functions `D`, `W`, `E`:
one line holding the level tag, a space, and the slice rendering of `v`. -/
def printlnLine (levelTag : String) (v : List String) : String :=
  levelTag ++ " " ++ sliceRepr v

/-- Free function `D` (lines 70-74): prints iff `DEBUG == 1`. -/
def D (g : Globals) (v : List String) : List String :=
  if g.DEBUG = 1 then [printlnLine "[DBG]" v] else []

/-- Free function `W` (lines 86-90): prints iff `WARN == 1`. -/
def W (g : Globals) (v : List String) : List String :=
  if g.WARN = 1 then [printlnLine "[WRN]" v] else []

/-- Free function `E` (lines 102-106): prints iff `ERROR == 1`. -/
def E (g : Globals) (v : List String) : List String :=
  if g.ERROR = 1 then [printlnLine "[ERR]" v] else []

/-- `(*logger).formatMessage` (lines 53-58); `ts` stands for
`time.Now().Format(self.timeFormat)`. -/
def formatMessage (self : logger) (ts : String) : String :=
  if self.timeFormat ≠ "" then
    "[" ++ ts ++ "][" ++ self.tag ++ "]"
  else
    "[" ++ self.tag ++ "]"

/-- `fmt.Sprintf("[%s]", self.tag)`, the prefix the instance check helpers
build (lines 114, 143, 174). -/
def instTag (self : logger) : String :=
  "[" ++ self.tag ++ "]"

/-- `(*logger).D` (lines 62-66). -/
def logger.D (self : logger) (g : Globals) (ts : String) (v : List String) :
    List String :=
  if self.d = 1 then Golog.D g (formatMessage self ts :: v) else []

/-- `(*logger).W` (lines 78-82). -/
def logger.W (self : logger) (g : Globals) (ts : String) (v : List String) :
    List String :=
  if self.w = 1 then Golog.W g (formatMessage self ts :: v) else []

/-- `(*logger).E` (lines 94-98). -/
def logger.E (self : logger) (g : Globals) (ts : String) (v : List String) :
    List String :=
  if self.e = 1 then Golog.E g (formatMessage self ts :: v) else []

/-- Free `CheckW` (lines 124-130): result is (lines printed, returned Bool). -/
def CheckW {α : Type} (toStr : α → String) (g : Globals) (err : Option α)
    (v : List String) : List String × Bool :=
  match err with
  | some x => (W g (v ++ [toStr x]), true)
  | none => ([], false)

/-- `(*logger).CheckW` (lines 112-118): consults the free form only when the
instance warn flag is set; the Bool is `err != nil` either way. -/
def logger.CheckW {α : Type} (toStr : α → String) (self : logger)
    (g : Globals) (err : Option α) (v : List String) : List String × Bool :=
  if self.w = 1 then
    Golog.CheckW toStr g err (instTag self :: v)
  else
    ([], err.isSome)

/-- Free `CheckE` (lines 154-159): result is (lines printed, abort payload). -/
def CheckE {α : Type} (toStr : α → String) (g : Globals) (err : Option α)
    (v : List String) : List String × Option α :=
  match err with
  | some x => (E g (v ++ [toStr x]), some x)
  | none => ([], none)

/-- `(*logger).CheckE` (lines 139-147): the log is gated on
`self.e == 1 && ERROR == 1`, the abort on the error alone. -/
def logger.CheckE {α : Type} (toStr : α → String) (self : logger)
    (g : Globals) (err : Option α) (v : List String) :
    List String × Option α :=
  match err with
  | some x =>
    ((if self.e = 1 ∧ g.ERROR = 1 then
        Golog.E g (instTag self :: (v ++ [toStr x]))
      else []), some x)
  | none => ([], none)

/-- `findFirstError` (lines 208-215). -/
def findFirstError {α : Type} : List (Option α) → Option α
  | [] => none
  | err :: rest =>
    match err with
    | some x => some x
    | none => findFirstError rest

/-- The `for _, err := range errs` logging loop of both `CheckMultiE`
bodies: `mk x` is the output of the loop body on a non-nil entry `x`. -/
def logEach {α : Type} (mk : α → List String) : List (Option α) → List String
  | [] => []
  | err :: rest =>
    match err with
    | some x => mk x ++ logEach mk rest
    | none => logEach mk rest

/-- Free `CheckMultiE` (lines 191-204). -/
def CheckMultiE {α : Type} (toStr : α → String) (g : Globals)
    (errs : List (Option α)) (v : List String) : List String × Option α :=
  match findFirstError errs with
  | some firstErr =>
    ((if g.ERROR = 1 then
        logEach (fun x => E g (v ++ [toStr x])) errs
      else []), some firstErr)
  | none => ([], none)

/-- `(*logger).CheckMultiE` (lines 169-184). -/
def logger.CheckMultiE {α : Type} (toStr : α → String) (self : logger)
    (g : Globals) (errs : List (Option α)) (v : List String) :
    List String × Option α :=
  match findFirstError errs with
  | some firstErr =>
    ((if self.e = 1 ∧ g.ERROR = 1 then
        logEach (fun x => Golog.E g (instTag self :: (v ++ [toStr x]))) errs
      else []), some firstErr)
  | none => ([], none)

/-- Free `BreakOnError` (lines 238-244): `r` is the in-flight abort signal
(`none` when no abort is propagating); the second component is the abort
signal still propagating afterwards. `toStr` renders the recovered payload. -/
def BreakOnError {α : Type} (toStr : α → String) (g : Globals)
    (r : Option α) : List String × Option α :=
  match r with
  | some p => (E g ["Recovered from panic:", toStr p], none)
  | none => ([], none)

/-- `(*logger).BreakOnError` (line 233): the method body is a plain call
to the free `BreakOnError`, so the `recover()` inside it is not called
directly by the deferred function; Go then makes that `recover()` return
nil. The nested call observes no abort, prints nothing, and the in-flight
signal keeps propagating. The receiver is unused. -/
def logger.BreakOnError {α : Type} (_toStr : α → String) (_self : logger)
    (_g : Globals) (r : Option α) : List String × Option α :=
  ([], r)

/-- One call to an instance method, with its arguments; payload and
argument values are `String`-rendered. Used to state that no operation
mutates the receiver. -/
inductive Op where
  | opD (ts : String) (v : List String)
  | opW (ts : String) (v : List String)
  | opE (ts : String) (v : List String)
  | opCheckW (err : Option String) (v : List String)
  | opCheckE (err : Option String) (v : List String)
  | opCheckMultiE (errs : List (Option String)) (v : List String)
  | opBreakOnError (r : Option String)

/-- Runs one instance method: returns the receiver as the method body
leaves it (the source assigns to no field of `self`), the lines printed,
the abort payload raised (if any), and the Bool result (if any). -/
def runOp (self : logger) (g : Globals) :
    Op → logger × List String × Option String × Bool
  | .opD ts v => (self, logger.D self g ts v, none, false)
  | .opW ts v => (self, logger.W self g ts v, none, false)
  | .opE ts v => (self, logger.E self g ts v, none, false)
  | .opCheckW err v =>
    (self, (logger.CheckW id self g err v).1, none,
      (logger.CheckW id self g err v).2)
  | .opCheckE err v =>
    (self, (logger.CheckE id self g err v).1,
      (logger.CheckE id self g err v).2, false)
  | .opCheckMultiE errs v =>
    (self, (logger.CheckMultiE id self g errs v).1,
      (logger.CheckMultiE id self g errs v).2, false)
  | .opBreakOnError r =>
    (self, (logger.BreakOnError id self g r).1,
      (logger.BreakOnError id self g r).2, false)


/-! ### Helper lemmas -/

theorem printlnLine_DBG (v : List String) :
    printlnLine "[DBG]" v = "[DBG] " ++ sliceRepr v := rfl

theorem printlnLine_WRN (v : List String) :
    printlnLine "[WRN]" v = "[WRN] " ++ sliceRepr v := rfl

theorem printlnLine_ERR (v : List String) :
    printlnLine "[ERR]" v = "[ERR] " ++ sliceRepr v := rfl

theorem findFirstError_eq_head {α : Type} (errs : List (Option α)) :
    findFirstError errs = (errs.filterMap id).head? := by
  induction errs with
  | nil => rfl
  | cons err rest ih => cases err <;> simp [findFirstError, ih]

theorem logEach_eq_map {α : Type} (mk : α → List String) (f : α → String)
    (h : ∀ x, mk x = [f x]) (errs : List (Option α)) :
    logEach mk errs = (errs.filterMap id).map f := by
  induction errs with
  | nil => rfl
  | cons err rest ih => cases err <;> simp [logEach, ih, h]


theorem checkMultiE_payload_free {α : Type} (toStr : α → String)
    (g : Globals) (errs : List (Option α)) (v : List String) :
    (CheckMultiE toStr g errs v).2 = (errs.filterMap id).head? := by
  have hf := findFirstError_eq_head errs
  cases h : findFirstError errs <;>
    · rw [← hf, h]
      simp [CheckMultiE, h]

theorem checkMultiE_payload_inst {α : Type} (toStr : α → String)
    (self : logger) (g : Globals) (errs : List (Option α)) (v : List String) :
    (logger.CheckMultiE toStr self g errs v).2 = (errs.filterMap id).head? := by
  have hf := findFirstError_eq_head errs
  cases h : findFirstError errs <;>
    · rw [← hf, h]
      simp [logger.CheckMultiE, h]

theorem checkMultiE_lines_free {α : Type} (toStr : α → String)
    (g : Globals) (errs : List (Option α)) (v : List String) :
    (CheckMultiE toStr g errs v).1
      = (if g.ERROR = 1 then
          (errs.filterMap id).map (fun x => printlnLine "[ERR]" (v ++ [toStr x]))
        else []) := by
  have hf := findFirstError_eq_head errs
  cases h : findFirstError errs with
  | none =>
    have hnil : errs.filterMap id = [] := by
      rw [h] at hf
      exact List.head?_eq_none_iff.mp hf.symm
    simp [CheckMultiE, h, hnil]
  | some fe =>
    by_cases hE : g.ERROR = 1
    · simp only [CheckMultiE, h, hE, if_true]
      exact logEach_eq_map _ _ (fun x => by simp [E, hE]) errs
    · simp [CheckMultiE, h, hE]

theorem checkMultiE_lines_inst {α : Type} (toStr : α → String)
    (self : logger) (g : Globals) (errs : List (Option α)) (v : List String) :
    (logger.CheckMultiE toStr self g errs v).1
      = (if self.e = 1 ∧ g.ERROR = 1 then
          (errs.filterMap id).map
            (fun x => printlnLine "[ERR]" (instTag self :: (v ++ [toStr x])))
        else []) := by
  have hf := findFirstError_eq_head errs
  cases h : findFirstError errs with
  | none =>
    have hnil : errs.filterMap id = [] := by
      rw [h] at hf
      exact List.head?_eq_none_iff.mp hf.symm
    simp [logger.CheckMultiE, h, hnil]
  | some fe =>
    by_cases hE : self.e = 1 ∧ g.ERROR = 1
    · simp only [logger.CheckMultiE, h, hE, if_true]
      exact logEach_eq_map _ _ (fun x => by simp [E, hE.2]) errs
    · simp [logger.CheckMultiE, h, hE]

/-! ### The claims -/

/-- C1: for every non-nil error and every flag configuration, `CheckE`
(free and instance forms) raises an abort signal carrying exactly that
error; a log line is emitted iff the applicable error-logging flags are
set (`ERROR == 1` alone for the free form, `self.e == 1 && ERROR == 1`
for the instance form). The abort is never gated by any flag. -/
theorem checkE_abort_unconditional {α : Type} (toStr : α → String)
    (g : Globals) (self : logger) (x : α) (v vi : List String) :
    (CheckE toStr g (some x) v).2 = some x
  ∧ (logger.CheckE toStr self g (some x) vi).2 = some x
  ∧ (CheckE toStr g (some x) v).1.length = (if g.ERROR = 1 then 1 else 0)
  ∧ (logger.CheckE toStr self g (some x) vi).1.length
      = (if self.e = 1 ∧ g.ERROR = 1 then 1 else 0) := by
  refine ⟨rfl, rfl, ?_, ?_⟩
  · by_cases h : g.ERROR = 1 <;> simp [CheckE, E, h]
  · by_cases h : self.e = 1 ∧ g.ERROR = 1
    · simp [logger.CheckE, E, h, h.2]
    · simp [logger.CheckE, h]

/-- C2 counterexample: with every global flag enabled, free `D` on the
single argument `"hello"` prints `[DBG] [hello]`, not `[DBG] hello`:
`fmt.Println` receives the variadic slice as one operand and renders it
inside square brackets, so something *is* added around the arguments. -/
theorem free_output_unbracketed_false :
    D defaultGlobals ["hello"] ≠ ["[DBG] hello"]
  ∧ D defaultGlobals ["hello"] = ["[DBG] [hello]"] := by
  constructor <;> decide

/-- C2 amended: for a free logging call whose own global flag is enabled
(whatever the other two flags hold), the printed line is the level tag,
one space, and the space-joined stringified arguments enclosed in one
extra pair of square brackets (Go renders the variadic argument slice as
a single bracketed value). -/
theorem free_output_format (g : Globals) (v : List String) :
    (g.DEBUG = 1 → D g v = ["[DBG] [" ++ String.intercalate " " v ++ "]"])
  ∧ (g.WARN = 1 → W g v = ["[WRN] [" ++ String.intercalate " " v ++ "]"])
  ∧ (g.ERROR = 1 → E g v = ["[ERR] [" ++ String.intercalate " " v ++ "]"]) := by
  refine ⟨fun hd => ?_, fun hw => ?_, fun he => ?_⟩
  · simp [D, hd, printlnLine, sliceRepr, String.append_assoc]
    rw [← String.append_assoc, (by decide : ("[DBG] [" : String) = "[DBG] " ++ "[")]
  · simp [W, hw, printlnLine, sliceRepr, String.append_assoc]
    rw [← String.append_assoc, (by decide : ("[WRN] [" : String) = "[WRN] " ++ "[")]
  · simp [E, he, printlnLine, sliceRepr, String.append_assoc]
    rw [← String.append_assoc, (by decide : ("[ERR] [" : String) = "[ERR] " ++ "[")]

/-- Witness for `free_output_format`: each free function at a
configuration where only its own flag is enabled, on the argument list
`["a", "b"]`. -/
theorem free_output_format_witness :
    (Globals.mk 1 0 0).DEBUG = 1
  ∧ (Globals.mk 0 1 0).WARN = 1
  ∧ (Globals.mk 0 0 1).ERROR = 1
  ∧ D (Globals.mk 1 0 0) ["a", "b"]
      = ["[DBG] [" ++ String.intercalate " " ["a", "b"] ++ "]"]
  ∧ W (Globals.mk 0 1 0) ["a", "b"]
      = ["[WRN] [" ++ String.intercalate " " ["a", "b"] ++ "]"]
  ∧ E (Globals.mk 0 0 1) ["a", "b"]
      = ["[ERR] [" ++ String.intercalate " " ["a", "b"] ++ "]"] :=
  ⟨rfl, rfl, rfl,
   (free_output_format (Globals.mk 1 0 0) ["a", "b"]).1 rfl,
   (free_output_format (Globals.mk 0 1 0) ["a", "b"]).2.1 rfl,
   (free_output_format (Globals.mk 0 0 1) ["a", "b"]).2.2 rfl⟩

/-- C3: `CheckMultiE` (free and instance forms) raises an abort carrying
the first non-nil entry of the slice, in slice order, iff one exists
(`head?` of the non-nil entries), and logs one line per non-nil entry, in
slice order, when the applicable error-logging flags are set; for an
empty or all-nil slice both sides reduce to no lines and no abort. -/
theorem checkMultiE_first_error_and_lines {α : Type} (toStr : α → String)
    (g : Globals) (self : logger) (errs : List (Option α))
    (v vi : List String) :
    (CheckMultiE toStr g errs v).2 = (errs.filterMap id).head?
  ∧ (logger.CheckMultiE toStr self g errs vi).2 = (errs.filterMap id).head?
  ∧ (CheckMultiE toStr g errs v).1
      = (if g.ERROR = 1 then
          (errs.filterMap id).map (fun x => printlnLine "[ERR]" (v ++ [toStr x]))
        else [])
  ∧ (logger.CheckMultiE toStr self g errs vi).1
      = (if self.e = 1 ∧ g.ERROR = 1 then
          (errs.filterMap id).map
            (fun x => printlnLine "[ERR]" (instTag self :: (vi ++ [toStr x])))
        else []) :=
  ⟨checkMultiE_payload_free toStr g errs v,
   checkMultiE_payload_inst toStr self g errs vi,
   checkMultiE_lines_free toStr g errs v,
   checkMultiE_lines_inst toStr self g errs vi⟩

/-- C4: `CheckW` (free and instance forms) returns `err != nil` under
every flag configuration; a line is printed iff the error is non-nil and
the applicable warn flags are set (so a nil error never prints). -/
theorem checkW_result_and_gating {α : Type} (toStr : α → String)
    (g : Globals) (self : logger) (err : Option α) (v vi : List String) :
    (CheckW toStr g err v).2 = err.isSome
  ∧ (logger.CheckW toStr self g err vi).2 = err.isSome
  ∧ ((CheckW toStr g err v).1 ≠ [] ↔ err.isSome = true ∧ g.WARN = 1)
  ∧ ((logger.CheckW toStr self g err vi).1 ≠ []
      ↔ err.isSome = true ∧ self.w = 1 ∧ g.WARN = 1) := by
  refine ⟨?_, ?_, ?_, ?_⟩ <;>
    cases err <;> by_cases hw : g.WARN = 1 <;> by_cases hsw : self.w = 1 <;>
      simp [CheckW, logger.CheckW, W, hw, hsw]

/-- C5: an instance method at level L writes a line iff both the
instance's flag for L and the matching global flag equal 1. -/
theorem instance_gating (self : logger) (g : Globals) (ts : String)
    (v : List String) :
    (logger.D self g ts v ≠ [] ↔ self.d = 1 ∧ g.DEBUG = 1)
  ∧ (logger.W self g ts v ≠ [] ↔ self.w = 1 ∧ g.WARN = 1)
  ∧ (logger.E self g ts v ≠ [] ↔ self.e = 1 ∧ g.ERROR = 1) := by
  refine ⟨?_, ?_, ?_⟩
  · by_cases h1 : self.d = 1 <;> by_cases h2 : g.DEBUG = 1 <;>
      simp [logger.D, D, h1, h2]
  · by_cases h1 : self.w = 1 <;> by_cases h2 : g.WARN = 1 <;>
      simp [logger.W, W, h1, h2]
  · by_cases h1 : self.e = 1 <;> by_cases h2 : g.ERROR = 1 <;>
      simp [logger.E, E, h1, h2]

/-- C6: every line an instance D/W/E method emits starts with the level
tag, and the instance prefix is the first element of the rendered
argument list: `[<ts>][<tag>]` when a time format is configured,
`[<tag>]` alone otherwise. -/
theorem instance_message_format (self : logger) (g : Globals) (ts : String)
    (v : List String) :
    logger.D self g ts v
      = (if self.d = 1 ∧ g.DEBUG = 1 then
          ["[DBG] " ++ sliceRepr (formatMessage self ts :: v)] else [])
  ∧ logger.W self g ts v
      = (if self.w = 1 ∧ g.WARN = 1 then
          ["[WRN] " ++ sliceRepr (formatMessage self ts :: v)] else [])
  ∧ logger.E self g ts v
      = (if self.e = 1 ∧ g.ERROR = 1 then
          ["[ERR] " ++ sliceRepr (formatMessage self ts :: v)] else [])
  ∧ formatMessage self ts
      = (if self.timeFormat = "" then "[" ++ self.tag ++ "]"
        else "[" ++ ts ++ "][" ++ self.tag ++ "]") := by
  refine ⟨?_, ?_, ?_, ?_⟩
  · by_cases h1 : self.d = 1 <;> by_cases h2 : g.DEBUG = 1 <;>
      simp [logger.D, D, h1, h2, printlnLine_DBG]
  · by_cases h1 : self.w = 1 <;> by_cases h2 : g.WARN = 1 <;>
      simp [logger.W, W, h1, h2, printlnLine_WRN]
  · by_cases h1 : self.e = 1 <;> by_cases h2 : g.ERROR = 1 <;>
      simp [logger.E, E, h1, h2, printlnLine_ERR]
  · by_cases h : self.timeFormat = "" <;> simp [formatMessage, h]

/-- C7: the claim holds for the free form but the instance form is a code
bug: `(*logger).BreakOnError` merely calls the free `BreakOnError`, so in
Go the nested `recover()` is not called directly by the deferred function
and returns nil. At the failing input — an abort carrying `boom` in
flight, every flag enabled — the instance form prints nothing and leaves
the abort propagating, while the free form (same input) intercepts it and
logs the payload, contradicting the claimed instance-form interception
(and the code's own doc-comment example at src/logger.go lines 222-232). -/
theorem breakOnError_instance_no_intercept :
    logger.BreakOnError id (Logger "db" 1 1 1 []) defaultGlobals
      (some "boom") = ([], some "boom")
  ∧ BreakOnError id defaultGlobals (some "boom")
      = (["[ERR] [Recovered from panic: boom]"], none) := by
  constructor <;> decide

/-- C8: no operation of the facility mutates the receiver: after any
instance method runs, the logger's tag, three level flags, and time
format are unchanged. -/
theorem instance_immutable (self : logger) (g : Globals) (op : Op) :
    (runOp self g op).1.tag = self.tag
  ∧ (runOp self g op).1.d = self.d
  ∧ (runOp self g op).1.w = self.w
  ∧ (runOp self g op).1.e = self.e
  ∧ (runOp self g op).1.timeFormat = self.timeFormat := by
  cases op <;> exact ⟨rfl, rfl, rfl, rfl, rfl⟩

/-- C9: even when a time format is configured, the instance check helpers
prefix their log lines with the bare bracketed tag `[<tag>]` only — never
the timestamped prefix the instance D/W/E methods use (`formatMessage`
differs from that prefix whenever a time format is set). -/
theorem check_helpers_tag_only {α : Type} (toStr : α → String)
    (self : logger) (g : Globals) (h : self.timeFormat ≠ "") (x : α)
    (err : Option α) (errs : List (Option α)) (v : List String)
    (ts : String) :
    (logger.CheckW toStr self g err v).1
      = (if self.w = 1 then (CheckW toStr g err (instTag self :: v)).1 else [])
  ∧ (logger.CheckE toStr self g (some x) v).1
      = (if self.e = 1 ∧ g.ERROR = 1 then
          [printlnLine "[ERR]" (instTag self :: (v ++ [toStr x]))] else [])
  ∧ (logger.CheckMultiE toStr self g errs v).1
      = (if self.e = 1 ∧ g.ERROR = 1 then
          (errs.filterMap id).map
            (fun y => printlnLine "[ERR]" (instTag self :: (v ++ [toStr y])))
        else [])
  ∧ instTag self = "[" ++ self.tag ++ "]"
  ∧ formatMessage self ts ≠ instTag self := by
  refine ⟨?_, ?_, checkMultiE_lines_inst toStr self g errs v, rfl, ?_⟩
  · by_cases hw : self.w = 1 <;> simp [logger.CheckW, hw]
  · by_cases hE : self.e = 1 ∧ g.ERROR = 1
    · simp [logger.CheckE, hE, E, hE.2]
    · simp [logger.CheckE, hE]
  · intro heq
    have hlen := congrArg String.length heq
    simp [formatMessage, instTag, h, String.length_append,
      show ("[" : String).length = 1 from rfl,
      show ("][" : String).length = 2 from rfl,
      show ("]" : String).length = 1 from rfl] at hlen

/-- Witness for `check_helpers_tag_only`: a logger with tag `db` and time
format `F`; its check-helper prefix `[db]` differs from the timestamped
prefix `[T][db]`. -/
theorem check_helpers_tag_only_witness :
    ({ tag := "db", d := 1, w := 1, e := 1, timeFormat := "F" } : logger).timeFormat ≠ ""
  ∧ formatMessage { tag := "db", d := 1, w := 1, e := 1, timeFormat := "F" } "T"
      ≠ instTag { tag := "db", d := 1, w := 1, e := 1, timeFormat := "F" } :=
  ⟨by decide,
   (check_helpers_tag_only id
      { tag := "db", d := 1, w := 1, e := 1, timeFormat := "F" }
      defaultGlobals (by decide) "boom" (some "boom") [some "boom"] ["ctx"]
      "T").2.2.2.2⟩

/-- C10: free `BreakOnError` intercepts an in-flight abort whatever the
payload's type or origin, logs it through the global error path with the
leading argument `Recovered from panic:`, and never re-raises: the signal
left in flight is `none` for every payload. -/
theorem breakOnError_any_payload {α : Type} (toStr : α → String)
    (g : Globals) (p : α) :
    (BreakOnError toStr g (some p)).2 = none
  ∧ (BreakOnError toStr g (some p)).1
      = (if g.ERROR = 1 then
          ["[ERR] " ++ sliceRepr ["Recovered from panic:", toStr p]] else []) := by
  refine ⟨rfl, ?_⟩
  by_cases h : g.ERROR = 1 <;> simp [BreakOnError, E, h, printlnLine_ERR]


end Golog
